import Mathlib

/-!
A shallow embedding of `src/plex_exporter.py`, a Prometheus exporter for a
Plex Media Server, together with proofs about the behaviour its
specification claims.

The exporter's metric values are numbers; its API payloads are decoded
JSON.  JSON values are modelled by `JVal`; Python dictionary/`int`/
truthiness semantics are modelled by the `py*` helpers.  A Python
exception raised at a given program point is modelled by `Option`-style
failure results threaded through the definitions: each definition notes
the source lines it embeds.

Modelling conventions (documented deviations, none load-bearing for the
claims below):
* floats are modelled as exact rationals (`ℚ`); `round(x, 2)` is modelled
  as exact decimal rounding with ties to even, as CPython defines it;
* `str()` of a float or container is abbreviated (`pyStr`); no claim
  involves stringifying a float or container;
* `int(string)` is modelled by `String.toInt?` (Python additionally strips
  whitespace and underscores; no claim depends on those inputs);
* Python `==` between containers is modelled structurally (`beqJ`).
-/

/-- A decoded JSON value, as produced by `response.json()` in the source. -/
inductive JVal where
  | jnull
  | jbool (b : Bool)
  | jint (n : ℤ)
  | jrat (q : ℚ)
  | jstr (s : String)
  | jarr (xs : List JVal)
  | jobj (kvs : List (String × JVal))
deriving Repr

mutual

/-- Structural equality of JSON values (used for Python `==` on
non-numeric values). -/
def beqJ : JVal → JVal → Bool
  | .jnull, .jnull => true
  | .jbool a, .jbool b => a == b
  | .jint a, .jint b => a == b
  | .jrat a, .jrat b => a == b
  | .jstr a, .jstr b => a == b
  | .jarr xs, .jarr ys => beqJList xs ys
  | .jobj xs, .jobj ys => beqJObj xs ys
  | _, _ => false

def beqJList : List JVal → List JVal → Bool
  | [], [] => true
  | x :: xs, y :: ys => beqJ x y && beqJList xs ys
  | _, _ => false

def beqJObj : List (String × JVal) → List (String × JVal) → Bool
  | [], [] => true
  | (k, x) :: xs, (l, y) :: ys => k == l && beqJ x y && beqJObj xs ys
  | _, _ => false

end

/-- Python dictionary lookup `d[k]` on the underlying association list:
`none` when the key is absent. -/
def dget (kvs : List (String × JVal)) (k : String) : Option JVal :=
  (kvs.find? (fun kv => kv.1 == k)).map (·.2)

/-- Python `d.get(k, dflt)` on the underlying association list. -/
def dgetD (kvs : List (String × JVal)) (k : String) (dflt : JVal) : JVal :=
  (dget kvs k).getD dflt

/-- Python truthiness of a JSON value. -/
def pyTruthy : JVal → Bool
  | .jnull => false
  | .jbool b => b
  | .jint n => n != 0
  | .jrat q => q != 0
  | .jstr s => !s.isEmpty
  | .jarr xs => !xs.isEmpty
  | .jobj kvs => !kvs.isEmpty

/-- The numeric value of a JSON value, when Python treats it as a number
(`bool` is an `int` in Python). -/
def pyNum : JVal → Option ℚ
  | .jint n => some n
  | .jrat q => some q
  | .jbool b => some (if b then 1 else 0)
  | _ => none

/-- Python `==`: numeric cross-type comparison, structural otherwise. -/
def pyEq (a b : JVal) : Bool :=
  match pyNum a, pyNum b with
  | some x, some y => x == y
  | _, _ => beqJ a b

/-- Truncation toward zero, the rounding mode of Python `int(float)`. -/
def pyTrunc (q : ℚ) : ℤ := if 0 ≤ q then ⌊q⌋ else -⌊-q⌋

/-- Python `int(v)`: `none` models a `ValueError`/`TypeError` raise. -/
def pyInt : JVal → Option ℤ
  | .jint n => some n
  | .jbool b => some (if b then 1 else 0)
  | .jrat q => some (pyTrunc q)
  | .jstr s => s.toInt?
  | _ => none

/-- Python `str(v)` (float/container rendering abbreviated; see header). -/
def pyStr : JVal → String
  | .jnull => "None"
  | .jbool b => if b then "True" else "False"
  | .jint n => toString n
  | .jrat q => toString q
  | .jstr s => s
  | .jarr _ => "[...]"
  | .jobj _ => "\x7b...\x7d"

/-- Whether `needle` occurs as a substring of `hay` (Python `in` on
strings). -/
def strContainsSub (needle hay : String) : Bool :=
  (List.range (hay.length + 1)).any (fun i => needle.toList.isPrefixOf (hay.toList.drop i))

/-- Python `k in v` for a string key: `none` models the `TypeError`
raised when `v` is not a container or string. -/
def pyContains (v : JVal) (k : String) : Option Bool :=
  match v with
  | .jobj kvs => some (kvs.any (fun kv => kv.1 == k))
  | .jarr xs => some (xs.any (fun x => match x with | .jstr t => t == k | _ => false))
  | .jstr s => some (strContainsSub k s)
  | _ => none

/-- Python subscript `v[k]` for a string key: `none` models the
`TypeError`/`KeyError` raised when `v` is not a dictionary holding `k`. -/
def pySubscr (v : JVal) (k : String) : Option JVal :=
  match v with
  | .jobj kvs => dget kvs k
  | _ => none

/-- Python iteration over `v`: lists iterate elements, strings iterate
their characters, dictionaries iterate their keys; `none` models the
`TypeError` raised for non-iterable values. -/
def pyIter : JVal → Option (List JVal)
  | .jarr xs => some xs
  | .jstr s => some (s.toList.map (fun c => .jstr (String.mk [c])))
  | .jobj kvs => some (kvs.map (fun kv => .jstr kv.1))
  | _ => none

/-- Python subscript `v[0]`: `none` models an `IndexError`/`TypeError`
raise. -/
def pyIndex0 : JVal → Option JVal
  | .jarr (x :: _) => some x
  | .jstr s =>
    match s.toList with
    | c :: _ => some (.jstr (String.mk [c]))
    | [] => none
  | _ => none

/-- Python `str.zfill(w)`: left-pad with zeros to width `w`, keeping a
leading sign in front of the padding. -/
def zfill (s : String) (w : ℕ) : String :=
  let n := s.length
  if w ≤ n then s
  else match s.toList with
    | c :: rest =>
      if c = '+' ∨ c = '-' then String.mk (c :: (List.replicate (w - n) '0' ++ rest))
      else String.mk (List.replicate (w - n) '0' ++ s.toList)
    | [] => String.mk (List.replicate w '0')

/-- CPython `round` to an integer: nearest, ties to even. -/
def roundHalfEven (x : ℚ) : ℤ :=
  let f := ⌊x⌋
  let r := x - (f : ℚ)
  if r < 1/2 then f
  else if 1/2 < r then f + 1
  else if Even f then f else f + 1

/-- CPython `round(x, 2)` on the exact-rational model of floats. -/
def pyRound2 (x : ℚ) : ℚ := (roundHalfEven (x * 100) : ℚ) / 100

/-! ## The API client: `fetch_plex_api` (source lines 114-186)

The HTTP layer is modelled by `FetchR`, the outcome the `requests`
library hands back for one call: either an exception raised by
`session.get` (connection, timeout, TLS - all behave identically in this
function), or a response with its status code, `Content-Type` header,
raw body, and the result of attempting to JSON-parse that body (`none`
when parsing would raise `JSONDecodeError`).  Rate limiting (lines
133-143) is timing behaviour and is modelled separately below. -/

/-- The outcome of one HTTP request as seen by `fetch_plex_api`. -/
inductive FetchR where
  | netExc
  | resp (status : ℕ) (contentType : String) (content : String) (json : Option JVal)

/-- `fetch_plex_api` response handling, lines 145-186.  Returns the value
handed to the caller (`none` models Python `None`) and whether
`plex_exporter_scrape_errors_total` was incremented by this call.

* a raised request exception logs and returns `None`, incrementing the
  error counter (lines 167-186);
* `raise_for_status` turns a 4xx/5xx status into such an exception
  (line 150);
* a 200 status with an empty body returns `{}` (lines 153-155);
* a body whose `Content-Type` claims JSON is parsed; a parse failure is
  a `JSONDecodeError` (lines 158-160, 167-171);
* any other `Content-Type` logs a warning and returns `{}`
  (lines 161-164). -/
def fetch_plex_api : FetchR → Option JVal × Bool
  | .netExc => (none, true)
  | .resp st ct content json =>
    if 400 ≤ st ∧ st < 600 then (none, true)
    else if st = 200 ∧ content = "" then (some (.jobj []), false)
    else if strContainsSub "application/json" ct then
      match json with
      | some v => (some v, false)
      | none => (none, true)
    else (some (.jobj []), false)

/-! ## Rate limiting (source lines 62-70 and 133-143)

Dispatch times are values of a monotonic clock.  `nextRequestTime`
models one pass through the rate-limiting block: `last` is the stored
`last_request_time`, `now` is the reading taken at line 135, and the
block sleeps for the computed remainder.  `drift` models the
non-negative extra time that passes between the end of the sleep and
the second clock reading at line 142 (`time.sleep` never wakes early),
and the value recorded there is the dispatch time of the request. -/

/-- `MIN_REQUEST_INTERVAL` derived from the requests-per-second budget,
lines 63-68. -/
def MIN_REQUEST_INTERVAL (rate : ℚ) : ℚ := if 0 < rate then 1 / rate else 0

/-- The sleep performed by lines 134-140: only when limiting is enabled
and the elapsed time since the last request is below the minimum. -/
def rateLimitSleep (m last now : ℚ) : ℚ :=
  if 0 < m then (if now - last < m then m - (now - last) else 0) else 0

/-- The new `last_request_time` recorded at line 142, immediately before
dispatch: the clock reading after the (possible) sleep. -/
def nextRequestTime (m last now drift : ℚ) : ℚ :=
  now + rateLimitSleep m last now + drift

/-! ## `get_media_title` (source lines 189-227)

The source function can return its `title` variable unchanged (a raw
decoded value) on the fallback paths, so the model returns a `JVal`.
The `except` clause of the source (lines 225-227) is unreachable for
decoded JSON inputs - every operation in the body is total on them - so
the model is a total function. -/

/-- `get_media_title`, lines 189-227.  Takes the entries of the session
metadata dictionary. -/
def get_media_title (m : List (String × JVal)) : JVal :=
  let media_type := dgetD m "type" (.jstr "unknown")
  let title := dgetD m "title" (.jstr "")
  if beqJ media_type (.jstr "episode") then
    let show_title := dgetD m "grandparentTitle" (.jstr "")
    let season_num := zfill (pyStr (dgetD m "parentIndex" (.jstr "?"))) 2
    let episode_num := zfill (pyStr (dgetD m "index" (.jstr "?"))) 2
    .jstr (pyStr show_title ++ " - S" ++ season_num ++ "E" ++ episode_num ++ " - " ++ pyStr title)
  else if beqJ media_type (.jstr "movie") then
    let year := dgetD m "year" (.jstr "")
    if pyTruthy year then .jstr (pyStr title ++ " (" ++ pyStr year ++ ")") else title
  else if beqJ media_type (.jstr "track") then
    let artist_title := dgetD m "grandparentTitle" (.jstr "")
    let album_title := dgetD m "parentTitle" (.jstr "")
    .jstr (pyStr artist_title ++ " - " ++ pyStr album_title ++ " - " ++ pyStr title)
  else title

/-! ## Session extraction (`_update_session_metrics`, source lines 266-367)

No code path of the exporter reads a metric value back from the
registry, so the registry writes of each `_update_*` function are
modelled as values the function returns and the orchestrator applies;
a write skipped because an exception was raised first is an absent
(`none`) value.  Labelled metric families are association lists from a
label record to the gauge value; `setLabel` is `family.labels(...).set(v)`
(replace the child with the same label combination, else append). -/

/-- `labels(...).set(v)` on one labelled family. -/
def setLabel {L : Type} (beq : L → L → Bool) (l : L) (v : ℤ)
    (fam : List (L × ℤ)) : List (L × ℤ) :=
  if fam.any (fun p => beq p.1 l) then
    fam.map (fun p => if beq p.1 l then (p.1, v) else p)
  else fam ++ [(l, v)]

/-- Label set of one `plex_session_details` series (source lines 92-95
and 321-326). -/
structure SessionL where
  session_key : JVal
  user : JVal
  player : JVal
  product : JVal
  state : JVal
  type : JVal
  address : JVal
  location : String
  secure : String
  media_title : JVal
  progress_percent : ℚ
  duration_ms : ℤ
  view_offset_ms : ℤ

def beqSessionL (a b : SessionL) : Bool :=
  beqJ a.session_key b.session_key && beqJ a.user b.user && beqJ a.player b.player &&
  beqJ a.product b.product && beqJ a.state b.state && beqJ a.type b.type &&
  beqJ a.address b.address && a.location == b.location && a.secure == b.secure &&
  beqJ a.media_title b.media_title && a.progress_percent == b.progress_percent &&
  a.duration_ms == b.duration_ms && a.view_offset_ms == b.view_offset_ms

/-- Label set of one `plex_transcode_session_details` series (source
lines 97-100 and 350-355). -/
structure TranscodeL where
  session_key : JVal
  user : JVal
  player : JVal
  product : JVal
  transcode_decision : String
  video_decision : JVal
  audio_decision : JVal
  subtitle_decision : JVal
  speed : JVal
  progress : JVal
  throttled : String

def beqTranscodeL (a b : TranscodeL) : Bool :=
  beqJ a.session_key b.session_key && beqJ a.user b.user && beqJ a.player b.player &&
  beqJ a.product b.product && a.transcode_decision == b.transcode_decision &&
  beqJ a.video_decision b.video_decision && beqJ a.audio_decision b.audio_decision &&
  beqJ a.subtitle_decision b.subtitle_decision && beqJ a.speed b.speed &&
  beqJ a.progress b.progress && a.throttled == b.throttled

/-- The duration/offset/progress computation of source lines 303-317:
`duration_num` and `view_offset_num` start at 0, are assigned in order
inside a `try` whose handler (catching the coercion failures) leaves
`progress_percent` at 0, and `progress_percent` is computed only for a
positive duration. -/
def sessionProgress (duration_ms view_offset_ms : JVal) : ℤ × ℤ × ℚ :=
  match pyInt duration_ms with
  | none => (0, 0, 0)
  | some d =>
    match pyInt view_offset_ms with
    | none => (d, 0, 0)
    | some v => (d, v, if 0 < d then pyRound2 ((v : ℚ) / (d : ℚ) * 100) else 0)

/-- The transcode-decision classification of source lines 339-347.  The
source initialises the variable to "Direct Play" (line 340), but the
if/elif/else chain reassigns it on every path, so that placeholder is
dead. -/
def transcodeDecision (video_decision audio_decision : JVal) : String :=
  if beqJ video_decision (.jstr "copy") && beqJ audio_decision (.jstr "copy") then
    "Direct Stream"
  else if beqJ video_decision (.jstr "transcode") || beqJ audio_decision (.jstr "transcode") then
    "Transcode"
  else
    "Unknown"

/-- Outcome of one iteration of the session loop (source lines 288-355):
either an exception before the session-detail label was set, an
exception after it (inside the transcode block), or completion with or
without a transcode record. -/
inductive SessStep where
  | exnBefore
  | exnAfter (sl : SessionL)
  | okNoT (sl : SessionL)
  | okT (sl : SessionL) (tl : TranscodeL)

/-- The label record a session-loop iteration published, if any. -/
def sessStepLabel : SessStep → Option SessionL
  | .exnBefore => none
  | .exnAfter sl => some sl
  | .okNoT sl => some sl
  | .okT sl _ => some sl

/-- One iteration of the session loop, source lines 288-355.  Raise
points, in source order: `session.get` on a non-dictionary element
(line 290), `.get('title', ...)` on a non-dictionary `User` value
(line 290), the `player_info.get` calls on a non-dictionary `Player`
value (lines 292-299), and the `transcode_session.get` calls on a
truthy non-dictionary `TranscodeSession` value (lines 332-337). -/
def processSession (session : JVal) : SessStep :=
  match session with
  | .jobj skvs =>
    match dgetD skvs "User" (.jobj []) with
    | .jobj ukvs =>
      let user := dgetD ukvs "title" (.jstr "Unknown")
      match dgetD skvs "Player" (.jobj []) with
      | .jobj pkvs =>
        let player := dgetD pkvs "title" (.jstr "Unknown")
        let product := dgetD pkvs "product" (.jstr "Unknown")
        let state := dgetD pkvs "state" (.jstr "unknown")
        let session_key := dgetD skvs "sessionKey" (.jstr "unknown")
        let session_type := dgetD skvs "type" (.jstr "unknown")
        let address := dgetD pkvs "address" (.jstr "unknown")
        let location := if pyTruthy (dgetD pkvs "local" (.jbool false)) then "local" else "remote"
        let secure_conn := if pyTruthy (dgetD pkvs "secure" (.jbool false)) then "yes" else "no"
        let media_title := get_media_title skvs
        let dvp := sessionProgress (dgetD skvs "duration" (.jint 0)) (dgetD skvs "viewOffset" (.jint 0))
        let sl : SessionL :=
          { session_key, user, player, product, state, type := session_type, address,
            location, secure := secure_conn, media_title,
            progress_percent := dvp.2.2, duration_ms := dvp.1, view_offset_ms := dvp.2.1 }
        match dget skvs "TranscodeSession" with
        | none => .okNoT sl
        | some ts =>
          if pyTruthy ts then
            match ts with
            | .jobj tkvs =>
              let video_decision := dgetD tkvs "videoDecision" (.jstr "unknown")
              let audio_decision := dgetD tkvs "audioDecision" (.jstr "unknown")
              let subtitle_decision := dgetD tkvs "subtitleDecision" (.jstr "N/A")
              let speed := dgetD tkvs "speed" (.jrat (-1))
              let progress := dgetD tkvs "progress" (.jrat (-1))
              let throttled := if pyTruthy (dgetD tkvs "throttled" (.jbool false)) then "yes" else "no"
              .okT sl
                { session_key, user, player, product,
                  transcode_decision := transcodeDecision video_decision audio_decision,
                  video_decision, audio_decision, subtitle_decision, speed, progress, throttled }
            | _ => .exnAfter sl
          else .okNoT sl
      | _ => .exnBefore
    | _ => .exnBefore
  | _ => .exnBefore

/-- The session loop of source lines 288-355, accumulating the two
labelled families and the transcode count; stops at the first raised
exception, keeping the labels already set. -/
def processSessions : List JVal → List (SessionL × ℤ) → List (TranscodeL × ℤ) → ℤ →
    List (SessionL × ℤ) × List (TranscodeL × ℤ) × ℤ × Bool
  | [], dets, tdets, tc => (dets, tdets, tc, false)
  | s :: rest, dets, tdets, tc =>
    match processSession s with
    | .exnBefore => (dets, tdets, tc, true)
    | .exnAfter sl => (setLabel beqSessionL sl 1 dets, tdets, tc, true)
    | .okNoT sl => processSessions rest (setLabel beqSessionL sl 1 dets) tdets tc
    | .okT sl tl =>
      processSessions rest (setLabel beqSessionL sl 1 dets) (setLabel beqTranscodeL tl 1 tdets) (tc + 1)

/-- What `_update_session_metrics` published: the two labelled families
after their unconditional `clear()` (lines 278-279) and repopulation,
and the two aggregate gauges, which are written at the end of the
function (lines 365-366) and hence not written at all when an exception
was raised (`none`). -/
structure SessRes where
  details : List (SessionL × ℤ)
  transcodeDetails : List (TranscodeL × ℤ)
  active : Option ℤ
  transcodeActive : Option ℤ
  raised : Bool

/-- `_update_session_metrics`, source lines 266-367, as a function of
the `fetch_plex_api('/status/sessions')` result. -/
def sessionsCore (res : Option JVal) : SessRes :=
  match res with
  | none =>
    { details := [], transcodeDetails := [], active := some 0, transcodeActive := some 0,
      raised := false }
  | some d =>
    match pyContains d "MediaContainer" with
    | none =>
      { details := [], transcodeDetails := [], active := none, transcodeActive := none,
        raised := true }
    | some false =>
      { details := [], transcodeDetails := [], active := some 0, transcodeActive := some 0,
        raised := false }
    | some true =>
      match pySubscr d "MediaContainer" with
      | none =>
        { details := [], transcodeDetails := [], active := none, transcodeActive := none,
          raised := true }
      | some container =>
        match container with
        | .jobj ckvs =>
          match pyInt (dgetD ckvs "size" (.jint 0)) with
          | none =>
            { details := [], transcodeDetails := [], active := none, transcodeActive := none,
              raised := true }
          | some szv =>
            if ckvs.any (fun kv => kv.1 == "Metadata") then
              match pyIter (dgetD ckvs "Metadata" (.jarr [])) with
              | none =>
                { details := [], transcodeDetails := [], active := none,
                  transcodeActive := none, raised := true }
              | some sessions =>
                let acc := processSessions sessions [] [] 0
                if acc.2.2.2 then
                  { details := acc.1, transcodeDetails := acc.2.1, active := none,
                    transcodeActive := none, raised := true }
                else
                  { details := acc.1, transcodeDetails := acc.2.1, active := some szv,
                    transcodeActive := some acc.2.2.1, raised := false }
            else
              { details := [], transcodeDetails := [], active := some szv,
                transcodeActive := some 0, raised := false }
        | _ =>
          { details := [], transcodeDetails := [], active := none, transcodeActive := none,
            raised := true }

/-! ## Library extraction (`_update_library_metrics`, source lines 369-413) -/

/-- Label set of one `plex_library_items_count` series (line 104). -/
structure LibL where
  section_title : JVal
  section_type : JVal

def beqLibL (a b : LibL) : Bool :=
  beqJ a.section_title b.section_title && beqJ a.section_type b.section_type

/-- The `/library/sections/{key}/all` endpoint of the per-section item
count fetch, source line 394. -/
def sectionEndpoint (key : JVal) : String :=
  "/library/sections/" ++ pyStr key ++ "/all?X-Plex-Container-Start=0&X-Plex-Container-Size=0"

/-- What `_update_library_metrics` produced: the item-count family after
its unconditional `clear()` (line 379), the section-count gauge written
at the end of the function (line 412, absent when an exception was
raised), the endpoints of the per-section fetches it issued, and how
often those fetches incremented the error counter. -/
structure LibRes where
  items : List (LibL × ℤ)
  sections : Option ℤ
  eps : List String
  errBump : ℕ
  raised : Bool

/-- The per-section loop of source lines 387-405.  A section whose
detail fetch fails or has no container is only logged - its item count
is omitted (lines 400-402); a section without a truthy key is only
logged (lines 404-405); a non-dictionary section element raises at
`section.get` (line 388). -/
def processSections (env : String → FetchR) :
    List JVal → List (LibL × ℤ) → List String → ℕ →
    List (LibL × ℤ) × List String × ℕ × Bool
  | [], items, eps, eb => (items, eps, eb, false)
  | s :: rest, items, eps, eb =>
    match s with
    | .jobj skvs =>
      let section_key := dget skvs "key"
      let section_title := dgetD skvs "title" (.jstr "Unknown")
      let section_type := dgetD skvs "type" (.jstr "Unknown")
      let keyTruthy := match section_key with | none => false | some v => pyTruthy v
      if keyTruthy then
        let kv := section_key.getD .jnull
        let fr := fetch_plex_api (env (sectionEndpoint kv))
        let eps1 := eps ++ [sectionEndpoint kv]
        let eb1 := eb + (if fr.2 then 1 else 0)
        match fr.1 with
        | none => processSections env rest items eps1 eb1
        | some sd =>
          match pyContains sd "MediaContainer" with
          | none => (items, eps1, eb1, true)
          | some false => processSections env rest items eps1 eb1
          | some true =>
            match pySubscr sd "MediaContainer" with
            | none => (items, eps1, eb1, true)
            | some mc =>
              match mc with
              | .jobj mckvs =>
                match pyInt (dgetD mckvs "totalSize" (dgetD mckvs "size" (.jint 0))) with
                | none => (items, eps1, eb1, true)
                | some cnt =>
                  processSections env rest
                    (setLabel beqLibL ⟨section_title, section_type⟩ cnt items) eps1 eb1
              | _ => (items, eps1, eb1, true)
      else processSections env rest items eps eb
    | _ => (items, eps, eb, true)

/-- `_update_library_metrics`, source lines 369-413, as a function of
the `fetch_plex_api('/library/sections')` result; issues the per-section
detail fetches itself through `env`. -/
def libraryCore (env : String → FetchR) (res : Option JVal) : LibRes :=
  match res with
  | none => { items := [], sections := some 0, eps := [], errBump := 0, raised := false }
  | some d =>
    match pyContains d "MediaContainer" with
    | none => { items := [], sections := none, eps := [], errBump := 0, raised := true }
    | some false => { items := [], sections := some 0, eps := [], errBump := 0, raised := false }
    | some true =>
      match pySubscr d "MediaContainer" with
      | none => { items := [], sections := none, eps := [], errBump := 0, raised := true }
      | some container =>
        match container with
        | .jobj ckvs =>
          match pyInt (dgetD ckvs "size" (.jint 0)) with
          | none => { items := [], sections := none, eps := [], errBump := 0, raised := true }
          | some cnt =>
            if ckvs.any (fun kv => kv.1 == "Directory") then
              match pyIter (dgetD ckvs "Directory" (.jarr [])) with
              | none =>
                { items := [], sections := none, eps := [], errBump := 0, raised := true }
              | some sects =>
                let acc := processSections env sects [] [] 0
                if acc.2.2.2 then
                  { items := acc.1, sections := none, eps := acc.2.1, errBump := acc.2.2.1,
                    raised := true }
                else
                  { items := acc.1, sections := some cnt, eps := acc.2.1,
                    errBump := acc.2.2.1, raised := false }
            else
              { items := [], sections := some cnt, eps := [], errBump := 0, raised := false }
        | _ => { items := [], sections := none, eps := [], errBump := 0, raised := true }

/-! ## Devices, activities, updater (source lines 415-486) -/

/-- A gauge written at the end of an extractor: absent when an exception
was raised first. -/
structure CountRes where
  count : Option ℤ
  raised : Bool

/-- The device filter of source lines 431-434: `not server_id` is
evaluated first, so with a falsy server identifier every element counts
without being inspected; otherwise a non-dictionary element raises at
`d.get('clientIdentifier')`. -/
def countDevices (sidTruthy : Bool) (sid : JVal) : List JVal → ℤ → Option ℤ
  | [], n => some n
  | d :: rest, n =>
    if !sidTruthy then countDevices sidTruthy sid rest (n + 1)
    else match d with
      | .jobj dkvs =>
        if !(pyEq ((dget dkvs "clientIdentifier").getD .jnull) sid) then
          countDevices sidTruthy sid rest (n + 1)
        else countDevices sidTruthy sid rest n
      | _ => none

/-- `_update_device_metrics`, source lines 415-442, as a function of the
`fetch_plex_api('/devices')` result and the identity dictionary built by
`_update_server_status` (`server_id` is its `machine_identifier` entry
when the dictionary is truthy, line 429). -/
def devicesCore (res : Option JVal) (server_info_dict : List (String × JVal)) : CountRes :=
  match res with
  | none => { count := some 0, raised := false }
  | some d =>
    match pyContains d "MediaContainer" with
    | none => { count := none, raised := true }
    | some false => { count := some 0, raised := false }
    | some true =>
      match pySubscr d "MediaContainer" with
      | none => { count := none, raised := true }
      | some mc =>
        match mc with
        | .jobj mckvs =>
          let sid := if server_info_dict.isEmpty then .jnull
            else (dget server_info_dict "machine_identifier").getD .jnull
          match pyIter (dgetD mckvs "Device" (.jarr [])) with
          | none => { count := none, raised := true }
          | some ds =>
            match countDevices (pyTruthy sid) sid ds 0 with
            | none => { count := none, raised := true }
            | some n => { count := some n, raised := false }
        | _ => { count := none, raised := true }

/-- `_update_activity_metrics`, source lines 444-460, as a function of
the `fetch_plex_api('/activities')` result. -/
def activitiesCore (res : Option JVal) : CountRes :=
  match res with
  | none => { count := some 0, raised := false }
  | some d =>
    match pyContains d "MediaContainer" with
    | none => { count := none, raised := true }
    | some false => { count := some 0, raised := false }
    | some true =>
      match pySubscr d "MediaContainer" with
      | none => { count := none, raised := true }
      | some mc =>
        match mc with
        | .jobj mckvs =>
          match pyInt (dgetD mckvs "size" (.jint 0)) with
          | none => { count := none, raised := true }
          | some n => { count := some n, raised := false }
        | _ => { count := none, raised := true }

/-- Label set of one `plex_updater_available` series (line 86). -/
structure UpdaterL where
  current_version : JVal
  available_version : JVal

/-- What `_update_updater_status` left in the `plex_updater_available`
family: the family is cleared unconditionally right after the fetch
(line 471), so it is always written - `[]` unless the success path
republished one series (line 481). -/
structure UpdaterRes where
  family : List (UpdaterL × ℤ)
  raised : Bool

/-- `_update_updater_status`, source lines 462-486, as a function of the
`fetch_plex_api('/updater/status')` result.  On the success path,
`status == 1` marks an update available; `available_version` is read
from `Release[0]` only in that case and otherwise set to the current
version (line 479). -/
def updaterCore (res : Option JVal) : UpdaterRes :=
  match res with
  | none => { family := [], raised := false }
  | some d =>
    match pyContains d "MediaContainer" with
    | none => { family := [], raised := true }
    | some false => { family := [], raised := false }
    | some true =>
      match pySubscr d "MediaContainer" with
      | none => { family := [], raised := true }
      | some container =>
        match container with
        | .jobj ckvs =>
          match pyInt (dgetD ckvs "status" (.jint 0)) with
          | none => { family := [], raised := true }
          | some stv =>
            let update_available_flag := stv = 1
            let current_version := dgetD ckvs "version" (.jstr "unknown")
            if update_available_flag then
              match pyIndex0 (dgetD ckvs "Release" (.jarr [.jobj []])) with
              | none => { family := [], raised := true }
              | some rel =>
                match rel with
                | .jobj rkvs =>
                  let available_version := dgetD rkvs "version" (.jstr "unknown")
                  { family := [(⟨current_version, available_version⟩, 1)], raised := false }
                | _ => { family := [], raised := true }
            else
              { family := [(⟨current_version, current_version⟩, 0)], raised := false }
        | _ => { family := [], raised := true }

/-! ## Identity (`_update_server_status`, source lines 230-264) -/

/-- What `_update_server_status` produced: the reachability gauge and
identity info (absent when an exception was raised before the write),
the boolean/dictionary pair it returns to the orchestrator, and whether
it raised.  On the success path `plex_server_up.set(1)` (line 243)
precedes the container reads, so a raise at those reads leaves the
gauge set to 1 with stale info. -/
structure ServerRes where
  up : Option ℤ
  info : Option (List (String × JVal))
  ok : Bool
  infoDict : List (String × JVal)
  raised : Bool

/-- `_update_server_status`, source lines 230-264, as a function of the
`fetch_plex_api('/identity')` result. -/
def serverStatusCore (res : Option JVal) : ServerRes :=
  match res with
  | none => { up := some 0, info := some [], ok := false, infoDict := [], raised := false }
  | some d =>
    match pyContains d "MediaContainer" with
    | none => { up := none, info := none, ok := false, infoDict := [], raised := true }
    | some false => { up := some 0, info := some [], ok := false, infoDict := [], raised := false }
    | some true =>
      match pySubscr d "MediaContainer" with
      | none => { up := some 1, info := none, ok := false, infoDict := [], raised := true }
      | some mc =>
        match mc with
        | .jobj mckvs =>
          let server_info_dict : List (String × JVal) :=
            [("version", dgetD mckvs "version" (.jstr "unknown")),
             ("platform", dgetD mckvs "platform" (.jstr "unknown")),
             ("platform_version", dgetD mckvs "platformVersion" (.jstr "unknown")),
             ("friendly_name", dgetD mckvs "friendlyName" (.jstr "unknown")),
             ("machine_identifier", dgetD mckvs "machineIdentifier" (.jstr "unknown"))]
          { up := some 1, info := some server_info_dict, ok := true,
            infoDict := server_info_dict, raised := false }
        | _ => { up := some 1, info := none, ok := false, infoDict := [], raised := true }

/-! ## The metrics registry and the orchestrator
(`collect_plex_metrics`, source lines 489-533)

`Registry` holds the metric state with lifetime beyond one cycle:
counters as naturals, gauges as integers, labelled families as
association lists, the `Info` metric as its current label dictionary.
`RegPatch` is the set of writes one orchestration cycle performs; a
`none` field is a write that never happened (skipped by an exception or
by the short-circuit).  Deferring the writes to one `applyPatch` is
faithful because no code path of the exporter reads a metric value. -/

structure Registry where
  scrapes_total : ℕ
  scrape_errors_total : ℕ
  server_up : ℤ
  server_info : List (String × JVal)
  sessions_active : ℤ
  session_details : List (SessionL × ℤ)
  transcode_sessions_active : ℤ
  transcode_session_details : List (TranscodeL × ℤ)
  library_sections : ℤ
  library_items : List (LibL × ℤ)
  devices_connected : ℤ
  activities_active : ℤ
  updater_available : List (UpdaterL × ℤ)

structure RegPatch where
  scrapeBump : ℕ := 0
  errBump : ℕ := 0
  server_up : Option ℤ := none
  server_info : Option (List (String × JVal)) := none
  sessions_active : Option ℤ := none
  session_details : Option (List (SessionL × ℤ)) := none
  transcode_sessions_active : Option ℤ := none
  transcode_session_details : Option (List (TranscodeL × ℤ)) := none
  library_sections : Option ℤ := none
  library_items : Option (List (LibL × ℤ)) := none
  devices_connected : Option ℤ := none
  activities_active : Option ℤ := none
  updater_available : Option (List (UpdaterL × ℤ)) := none

/-- Apply one cycle's writes to the registry. -/
def applyPatch (p : RegPatch) (r : Registry) : Registry :=
  { scrapes_total := r.scrapes_total + p.scrapeBump,
    scrape_errors_total := r.scrape_errors_total + p.errBump,
    server_up := p.server_up.getD r.server_up,
    server_info := p.server_info.getD r.server_info,
    sessions_active := p.sessions_active.getD r.sessions_active,
    session_details := p.session_details.getD r.session_details,
    transcode_sessions_active := p.transcode_sessions_active.getD r.transcode_sessions_active,
    transcode_session_details := p.transcode_session_details.getD r.transcode_session_details,
    library_sections := p.library_sections.getD r.library_sections,
    library_items := p.library_items.getD r.library_items,
    devices_connected := p.devices_connected.getD r.devices_connected,
    activities_active := p.activities_active.getD r.activities_active,
    updater_available := p.updater_available.getD r.updater_available }

/-- The registry plus the trace of endpoints fetched, for stating which
API calls a cycle issued. -/
structure World where
  reg : Registry
  fetched : List String

/-- Result of one orchestration cycle: the writes, the endpoints
fetched in order, and whether an exception escaped the orchestrator
(only an identity-extractor raise can; the secondary extractors run
inside its `try`). -/
structure CollectR where
  patch : RegPatch
  eps : List String
  raised : Bool

/-- The `except` handler of source lines 528-531: count the caught
extractor exception as one scrape error (further extractors in the
`try` body no longer run). -/
def catchBump (p : RegPatch) : RegPatch := { p with errBump := p.errBump + 1 }

/-- `collect_plex_metrics`, source lines 489-533, as a function of the
environment (the HTTP outcome of each endpoint).  The scrape counter is
bumped first (line 500); an identity failure zeroes/clears every Plex
metric and ends the cycle (lines 506-518); otherwise the five secondary
extractors run in order inside one `try` (lines 521-531). -/
def collectOutcome (env : String → FetchR) : CollectR :=
  let idF := fetch_plex_api (env "/identity")
  let sres := serverStatusCore idF.1
  let p0 : RegPatch :=
    { scrapeBump := 1, errBump := if idF.2 then 1 else 0,
      server_up := sres.up, server_info := sres.info }
  if sres.raised then { patch := p0, eps := ["/identity"], raised := true }
  else if !sres.ok then
    let pDown :=
      { p0 with
        sessions_active := some 0
        transcode_sessions_active := some 0
        library_sections := some 0
        library_items := some []
        devices_connected := some 0
        activities_active := some 0
        updater_available := some []
        session_details := some []
        transcode_session_details := some [] }
    { patch := pDown, eps := ["/identity"], raised := false }
  else
    let sF := fetch_plex_api (env "/status/sessions")
    let ss := sessionsCore sF.1
    let p1 :=
      { p0 with
        errBump := p0.errBump + (if sF.2 then 1 else 0)
        session_details := some ss.details
        transcode_session_details := some ss.transcodeDetails
        sessions_active := ss.active
        transcode_sessions_active := ss.transcodeActive }
    let eps1 := ["/identity", "/status/sessions"]
    if ss.raised then { patch := catchBump p1, eps := eps1, raised := false }
    else
      let lF := fetch_plex_api (env "/library/sections")
      let lres := libraryCore env lF.1
      let p2 :=
        { p1 with
          errBump := p1.errBump + (if lF.2 then 1 else 0) + lres.errBump
          library_items := some lres.items
          library_sections := lres.sections }
      let eps2 := eps1 ++ ["/library/sections"] ++ lres.eps
      if lres.raised then { patch := catchBump p2, eps := eps2, raised := false }
      else
        let dF := fetch_plex_api (env "/devices")
        let dres := devicesCore dF.1 sres.infoDict
        let p3 :=
          { p2 with
            errBump := p2.errBump + (if dF.2 then 1 else 0)
            devices_connected := dres.count }
        let eps3 := eps2 ++ ["/devices"]
        if dres.raised then { patch := catchBump p3, eps := eps3, raised := false }
        else
          let aF := fetch_plex_api (env "/activities")
          let ares := activitiesCore aF.1
          let p4 :=
            { p3 with
              errBump := p3.errBump + (if aF.2 then 1 else 0)
              activities_active := ares.count }
          let eps4 := eps3 ++ ["/activities"]
          if ares.raised then { patch := catchBump p4, eps := eps4, raised := false }
          else
            let uF := fetch_plex_api (env "/updater/status")
            let ures := updaterCore uF.1
            let p5 :=
              { p4 with
                errBump := p4.errBump + (if uF.2 then 1 else 0)
                updater_available := some ures.family }
            let eps5 := eps4 ++ ["/updater/status"]
            if ures.raised then { patch := catchBump p5, eps := eps5, raised := false }
            else { patch := p5, eps := eps5, raised := false }

/-- One orchestration cycle applied to a world: the updated registry,
the endpoint trace extended by this cycle's fetches, and whether an
exception escaped. -/
def collect_plex_metrics (env : String → FetchR) (w : World) : World × Bool :=
  let c := collectOutcome env
  ({ reg := applyPatch c.patch w.reg, fetched := w.fetched ++ c.eps }, c.raised)

/-- The Plex metric families of the registry - everything one cycle
publishes about the server, excluding the exporter's own meta-metrics
(total-scrape and scrape-error counters), which are monotone by design. -/
structure PlexView where
  server_up : ℤ
  server_info : List (String × JVal)
  sessions_active : ℤ
  session_details : List (SessionL × ℤ)
  transcode_sessions_active : ℤ
  transcode_session_details : List (TranscodeL × ℤ)
  library_sections : ℤ
  library_items : List (LibL × ℤ)
  devices_connected : ℤ
  activities_active : ℤ
  updater_available : List (UpdaterL × ℤ)

def Registry.plexView (r : Registry) : PlexView :=
  { server_up := r.server_up, server_info := r.server_info,
    sessions_active := r.sessions_active, session_details := r.session_details,
    transcode_sessions_active := r.transcode_sessions_active,
    transcode_session_details := r.transcode_session_details,
    library_sections := r.library_sections, library_items := r.library_items,
    devices_connected := r.devices_connected, activities_active := r.activities_active,
    updater_available := r.updater_available }

/-! ## Concrete inputs used by witnesses and counterexamples -/

/-- A 200 JSON response carrying the given decoded body. -/
def jsonResp (v : JVal) : FetchR := .resp 200 "application/json" "x" (some v)

/-- A well-formed `/identity` body. -/
def idBodyOk : JVal :=
  .jobj [("MediaContainer",
    .jobj [("version", .jstr "1.32.0"), ("machineIdentifier", .jstr "srv-1")])]

/-- An environment whose identity succeeds but whose `/status/sessions`
body carries a non-numeric `size` (a list), making `int()` raise inside
`_update_session_metrics`. -/
def envSessionRaise : String → FetchR := fun ep =>
  if ep = "/identity" then jsonResp idBodyOk
  else jsonResp (.jobj [("MediaContainer", .jobj [("size", .jarr [.jstr "oops"])])])

/-- An environment whose identity and sessions succeed but whose
`/library/sections` body carries a non-numeric `size` (a list), making
`int()` raise inside `_update_library_metrics`. -/
def envLibraryRaise : String → FetchR := fun ep =>
  if ep = "/identity" then jsonResp idBodyOk
  else if ep = "/library/sections" then
    jsonResp (.jobj [("MediaContainer", .jobj [("size", .jarr [.jstr "bad"])])])
  else jsonResp (.jobj [("MediaContainer", .jobj [("size", .jint 0)])])

/-- A registry still holding label series and gauge values from an
earlier cycle. -/
def regStale : Registry :=
  { scrapes_total := 0, scrape_errors_total := 0, server_up := 0, server_info := [],
    sessions_active := 0, session_details := [], transcode_sessions_active := 0,
    transcode_session_details := [], library_sections := 7,
    library_items := [(⟨.jstr "Stale", .jstr "movie"⟩, 42)], devices_connected := 3,
    activities_active := 2, updater_available := [(⟨.jstr "a", .jstr "b"⟩, 1)] }

def worldStale : World := { reg := regStale, fetched := [] }

/-- An environment where every fetch gets an HTTP 404. -/
def env404 : String → FetchR := fun _ => .resp 404 "text/html" "not found" none

/-- A session carrying negative `duration`/`viewOffset` values. -/
def sessNeg : JVal :=
  .jobj [("sessionKey", .jstr "9"), ("duration", .jint (-5000)), ("viewOffset", .jint (-100))]

def respSessionsNeg : JVal :=
  .jobj [("MediaContainer", .jobj [("size", .jint 1), ("Metadata", .jarr [sessNeg])])]

/-- A session with a transcode sub-object whose decisions match neither
classification pattern. -/
def sessBurn : JVal :=
  .jobj [("sessionKey", .jstr "4"),
    ("TranscodeSession",
      .jobj [("videoDecision", .jstr "burn"), ("audioDecision", .jstr "copy")])]

/-- An environment whose identity and secondary fetches succeed with
empty containers, except `/updater/status`, which gets an HTTP 500. -/
def envUpdaterFail : String → FetchR := fun ep =>
  if ep = "/updater/status" then .resp 500 "text/html" "err" none
  else if ep = "/identity" then jsonResp idBodyOk
  else jsonResp (.jobj [("MediaContainer", .jobj [("size", .jint 0)])])

/-- The session-detail record `processSession` builds for `sessBurn`. -/
def sessBurnSL : SessionL :=
  { session_key := .jstr "4", user := .jstr "Unknown", player := .jstr "Unknown",
    product := .jstr "Unknown", state := .jstr "unknown", type := .jstr "unknown",
    address := .jstr "unknown", location := "remote", secure := "no",
    media_title := .jstr "", progress_percent := 0, duration_ms := 0, view_offset_ms := 0 }

/-- The transcode-detail record `processSession` builds for `sessBurn`. -/
def sessBurnTL : TranscodeL :=
  { session_key := .jstr "4", user := .jstr "Unknown", player := .jstr "Unknown",
    product := .jstr "Unknown", transcode_decision := "Unknown",
    video_decision := .jstr "burn", audio_decision := .jstr "copy",
    subtitle_decision := .jstr "N/A", speed := .jrat (-1), progress := .jrat (-1),
    throttled := "no" }

/-! ## Helper lemmas -/

theorem optGetD_idem {α : Type} (o : Option α) (x : α) : o.getD (o.getD x) = o.getD x := by
  cases o <;> rfl

theorem beqJ_jstr_iff (v : JVal) (s : String) : beqJ v (.jstr s) = true ↔ v = .jstr s := by
  cases v <;> simp [beqJ]

theorem sessionProgress_dur_none {dur vo : JVal} (h : pyInt dur = none) :
    sessionProgress dur vo = (0, 0, 0) := by
  simp [sessionProgress, h]

theorem sessionProgress_dur_some {dur vo : JVal} {d : ℤ} (h : pyInt dur = some d) :
    (sessionProgress dur vo).1 = d := by
  cases hv : pyInt vo <;> simp [sessionProgress, h, hv]

theorem sessionProgress_vo_some {dur vo : JVal} {d v : ℤ}
    (hd : pyInt dur = some d) (hv : pyInt vo = some v) :
    (sessionProgress dur vo).2.1 = v := by
  simp [sessionProgress, hd, hv]

theorem sessionProgress_vo_none {dur vo : JVal} (hv : pyInt vo = none) :
    (sessionProgress dur vo).2.1 = 0 ∧ (sessionProgress dur vo).2.2 = 0 := by
  cases hd : pyInt dur <;> simp [sessionProgress, hd, hv]

/-! ## Claim C1 - non-JSON content type on a 2xx response -/

/-- C1 counterexample: a 200 response with Content-Type `text/html` is
NOT classified as a `decode` failure by `fetch_plex_api`: it returns the
empty-success value `{}` (not the `None` failure signal) and does not
increment the scrape-error counter. -/
theorem fetch_nonjson_decode_cex :
    (fetch_plex_api (.resp 200 "text/html" "<html>ok</html>" none)).1 = some (.jobj [])
    ∧ (fetch_plex_api (.resp 200 "text/html" "<html>ok</html>" none)).2 = false
    ∧ (fetch_plex_api (.resp 200 "text/html" "<html>ok</html>" none)).1 ≠ none := by
  have h : (fetch_plex_api (.resp 200 "text/html" "<html>ok</html>" none)).1 = some (.jobj []) :=
    rfl
  exact ⟨h, rfl, by rw [h]; exact Option.some_ne_none _⟩

/-- C1 (amended): for every fetch whose HTTP response has a non-error
status and a Content-Type that does not claim JSON, `fetch_plex_api`
treats it as a success with an empty decoded body `{}` (logging a
warning) and does not increment the scrape-error counter; only a body
whose Content-Type claims JSON but fails to parse is a `decode`
failure. -/
theorem fetch_nonjson_empty_success (st : ℕ) (ct content : String) (json : Option JVal)
    (hst : st < 400) (hct : strContainsSub "application/json" ct = false) :
    fetch_plex_api (.resp st ct content json) = (some (.jobj []), false) := by
  simp only [fetch_plex_api]
  have h1 : ¬(400 ≤ st ∧ st < 600) := by omega
  rw [if_neg h1]
  by_cases h2 : st = 200 ∧ content = ""
  · rw [if_pos h2]
  · rw [if_neg h2, hct]
    simp

/-- C1 witness for the amended theorem at a concrete response. -/
theorem fetch_nonjson_empty_success_witness :
    fetch_plex_api (.resp 200 "text/plain" "hello" none) = (some (.jobj []), false) :=
  fetch_nonjson_empty_success 200 "text/plain" "hello" none (by omega) rfl

/-! ## Claim C9 - rate limiting -/

/-- C9: when a positive minimum inter-request interval `m` is
configured, the dispatch time recorded for the next request is at least
`m` after the previously recorded one, for every clock reading `now`
and every non-negative extra delay `drift` of the sleep; consequently,
with a budget of 2 requests/second (minimum interval 0.5s), the third
of three consecutive fetches dispatches at least 1 second after the
first. -/
theorem rate_limit_min_gap :
    (∀ m last now drift : ℚ, 0 < m → 0 ≤ drift →
      last + m ≤ nextRequestTime m last now drift)
    ∧ (∀ t1 n1 d1 n2 d2 : ℚ, 0 ≤ d1 → 0 ≤ d2 →
      t1 + 1 ≤ nextRequestTime (MIN_REQUEST_INTERVAL 2)
        (nextRequestTime (MIN_REQUEST_INTERVAL 2) t1 n1 d1) n2 d2) := by
  have gap : ∀ m last now drift : ℚ, 0 < m → 0 ≤ drift →
      last + m ≤ nextRequestTime m last now drift := by
    intro m last now drift hm hd
    unfold nextRequestTime rateLimitSleep
    rw [if_pos hm]
    split_ifs with h
    · linarith
    · linarith [not_lt.mp h]
  refine ⟨gap, ?_⟩
  intro t1 n1 d1 n2 d2 h1 h2
  have hm : MIN_REQUEST_INTERVAL 2 = 1/2 := by norm_num [MIN_REQUEST_INTERVAL]
  have g1 := gap (MIN_REQUEST_INTERVAL 2) t1 n1 d1 (by rw [hm]; norm_num) h1
  have g2 := gap (MIN_REQUEST_INTERVAL 2)
    (nextRequestTime (MIN_REQUEST_INTERVAL 2) t1 n1 d1) n2 d2 (by rw [hm]; norm_num) h2
  rw [hm] at g1 g2 ⊢
  linarith

/-- C9 witness: the theorem applied at concrete clock values. -/
theorem rate_limit_min_gap_witness :
    (0 : ℚ) + 1/2 ≤ nextRequestTime (1/2) 0 (1/4) 0
    ∧ (3 : ℚ) + 1 ≤ nextRequestTime (MIN_REQUEST_INTERVAL 2)
        (nextRequestTime (MIN_REQUEST_INTERVAL 2) 3 3 0) 3 0 :=
  ⟨rate_limit_min_gap.1 (1/2) 0 (1/4) 0 (by norm_num) le_rfl,
   rate_limit_min_gap.2 3 3 0 3 0 le_rfl le_rfl⟩

/-! ## Claim C6 - progress_percent computation -/

/-- C6: `progress_percent` is 0 whenever the duration fails integer
coercion, the view offset fails integer coercion, or the coerced
duration is non-positive; otherwise it is `(view_offset / duration) *
100` rounded to 2 decimals; in particular duration 1000 with view
offset 250 yields 25.0. -/
theorem progress_percent_rule :
    (∀ dur vo : JVal, pyInt dur = none → (sessionProgress dur vo).2.2 = 0)
    ∧ (∀ dur vo : JVal, pyInt vo = none → (sessionProgress dur vo).2.2 = 0)
    ∧ (∀ (dur vo : JVal) (d : ℤ), pyInt dur = some d → d ≤ 0 →
        (sessionProgress dur vo).2.2 = 0)
    ∧ (∀ (dur vo : JVal) (d v : ℤ), pyInt dur = some d → pyInt vo = some v → 0 < d →
        (sessionProgress dur vo).2.2 = pyRound2 ((v : ℚ) / (d : ℚ) * 100))
    ∧ (sessionProgress (.jint 1000) (.jint 250)).2.2 = 25 := by
  refine ⟨?_, ?_, ?_, ?_, ?_⟩
  · intro dur vo h; simp [sessionProgress, h]
  · intro dur vo h; cases hd : pyInt dur <;> simp [sessionProgress, hd, h]
  · intro dur vo d hd hle
    cases hv : pyInt vo <;> simp [sessionProgress, hd, hv, not_lt.mpr hle]
  · intro dur vo d v hd hv hpos
    simp [sessionProgress, hd, hv, hpos]
  · show (sessionProgress (.jint 1000) (.jint 250)).2.2 = 25
    norm_num [sessionProgress, pyInt, pyRound2, roundHalfEven]

/-- C6 witness: the theorem applied at concrete sessions. -/
theorem progress_percent_rule_witness :
    (sessionProgress (.jarr []) (.jint 5)).2.2 = 0
    ∧ (sessionProgress (.jint 10) (.jnull)).2.2 = 0
    ∧ (sessionProgress (.jint (-10)) (.jint 5)).2.2 = 0
    ∧ (sessionProgress (.jint 1000) (.jint 250)).2.2 = pyRound2 ((250 : ℚ) / 1000 * 100) :=
  ⟨progress_percent_rule.1 _ _ rfl,
   progress_percent_rule.2.1 _ _ rfl,
   progress_percent_rule.2.2.1 _ _ (-10) rfl (by norm_num),
   progress_percent_rule.2.2.2.1 _ _ 1000 250 rfl rfl (by norm_num)⟩

/-! ## Claim C7 - transcode decision classification -/

/-- C7: for a present transcode sub-object the derived decision is
"Direct Stream" exactly when both decisions are `copy`, "Transcode"
exactly when (not both copy and) either decision is `transcode`,
"Unknown" in every other case, and "Direct Play" is never assigned to a
published transcode record (the published record's decision is always
`transcodeDecision` of its own decision fields). -/
theorem transcode_decision_rule :
    (∀ vd ad : JVal, transcodeDecision vd ad ≠ "Direct Play")
    ∧ (∀ vd ad : JVal, transcodeDecision vd ad = "Direct Stream" ↔
        vd = .jstr "copy" ∧ ad = .jstr "copy")
    ∧ (∀ vd ad : JVal, transcodeDecision vd ad = "Transcode" ↔
        ¬(vd = .jstr "copy" ∧ ad = .jstr "copy")
        ∧ (vd = .jstr "transcode" ∨ ad = .jstr "transcode"))
    ∧ (∀ vd ad : JVal, transcodeDecision vd ad = "Unknown" ↔
        ¬(vd = .jstr "copy" ∧ ad = .jstr "copy")
        ∧ ¬(vd = .jstr "transcode" ∨ ad = .jstr "transcode"))
    ∧ (∀ (s : JVal) (sl : SessionL) (tl : TranscodeL), processSession s = .okT sl tl →
        tl.transcode_decision = transcodeDecision tl.video_decision tl.audio_decision) := by
  have hDS : ∀ vd ad : JVal, vd = .jstr "copy" → ad = .jstr "copy" →
      transcodeDecision vd ad = "Direct Stream" := by
    intro vd ad h1 h2
    subst h1; subst h2; rfl
  have handf : ∀ vd ad : JVal, ¬(vd = .jstr "copy" ∧ ad = .jstr "copy") →
      (beqJ vd (.jstr "copy") && beqJ ad (.jstr "copy")) = false := by
    intro vd ad hn
    cases hb : (beqJ vd (.jstr "copy") && beqJ ad (.jstr "copy"))
    · rfl
    · rw [Bool.and_eq_true] at hb
      exact absurd ⟨(beqJ_jstr_iff _ _).mp hb.1, (beqJ_jstr_iff _ _).mp hb.2⟩ hn
  have hT : ∀ vd ad : JVal, ¬(vd = .jstr "copy" ∧ ad = .jstr "copy") →
      (vd = .jstr "transcode" ∨ ad = .jstr "transcode") →
      transcodeDecision vd ad = "Transcode" := by
    intro vd ad hn ho
    unfold transcodeDecision
    rw [handf vd ad hn]
    have hor : (beqJ vd (.jstr "transcode") || beqJ ad (.jstr "transcode")) = true := by
      rcases ho with h | h
      · rw [(beqJ_jstr_iff _ _).mpr h]; exact Bool.true_or _
      · rw [(beqJ_jstr_iff _ _).mpr h]; exact Bool.or_true _
    rw [hor]
    simp
  have hUn : ∀ vd ad : JVal, ¬(vd = .jstr "copy" ∧ ad = .jstr "copy") →
      ¬(vd = .jstr "transcode" ∨ ad = .jstr "transcode") →
      transcodeDecision vd ad = "Unknown" := by
    intro vd ad hn ho
    unfold transcodeDecision
    rw [handf vd ad hn]
    have hor : (beqJ vd (.jstr "transcode") || beqJ ad (.jstr "transcode")) = false := by
      cases hb : (beqJ vd (.jstr "transcode") || beqJ ad (.jstr "transcode"))
      · rfl
      · rw [Bool.or_eq_true] at hb
        rcases hb with h | h
        · exact absurd (Or.inl ((beqJ_jstr_iff _ _).mp h)) ho
        · exact absurd (Or.inr ((beqJ_jstr_iff _ _).mp h)) ho
    rw [hor]
    simp
  have htri : ∀ vd ad : JVal,
      transcodeDecision vd ad = "Direct Stream"
      ∨ transcodeDecision vd ad = "Transcode"
      ∨ transcodeDecision vd ad = "Unknown" := by
    intro vd ad
    by_cases h1 : vd = .jstr "copy" ∧ ad = .jstr "copy"
    · exact Or.inl (hDS vd ad h1.1 h1.2)
    · by_cases h2 : vd = .jstr "transcode" ∨ ad = .jstr "transcode"
      · exact Or.inr (Or.inl (hT vd ad h1 h2))
      · exact Or.inr (Or.inr (hUn vd ad h1 h2))
  refine ⟨?_, ?_, ?_, ?_, ?_⟩
  · intro vd ad
    rcases htri vd ad with h | h | h <;> rw [h] <;> simp
  · intro vd ad
    constructor
    · intro h
      by_cases h1 : vd = .jstr "copy" ∧ ad = .jstr "copy"
      · exact h1
      · exfalso
        by_cases h2 : vd = .jstr "transcode" ∨ ad = .jstr "transcode"
        · rw [hT vd ad h1 h2] at h; simp at h
        · rw [hUn vd ad h1 h2] at h; simp at h
    · intro h
      exact hDS vd ad h.1 h.2
  · intro vd ad
    constructor
    · intro h
      by_cases h1 : vd = .jstr "copy" ∧ ad = .jstr "copy"
      · rw [hDS vd ad h1.1 h1.2] at h; simp at h
      · by_cases h2 : vd = .jstr "transcode" ∨ ad = .jstr "transcode"
        · exact ⟨h1, h2⟩
        · rw [hUn vd ad h1 h2] at h; simp at h
    · intro h
      exact hT vd ad h.1 h.2
  · intro vd ad
    constructor
    · intro h
      by_cases h1 : vd = .jstr "copy" ∧ ad = .jstr "copy"
      · rw [hDS vd ad h1.1 h1.2] at h; simp at h
      · by_cases h2 : vd = .jstr "transcode" ∨ ad = .jstr "transcode"
        · rw [hT vd ad h1 h2] at h; simp at h
        · exact ⟨h1, h2⟩
    · intro h
      exact hUn vd ad h.1 h.2
  · intro s sl tl h
    cases s <;> simp only [processSession] at h
    all_goals try exact absurd h (by simp)
    case jobj skvs =>
      split at h
      · split at h
        · split at h
          · exact absurd h (by simp)
          · split at h
            · split at h
              · injection h with h1 h2
                subst h1
                subst h2
                rfl
              · exact absurd h (by simp)
            · exact absurd h (by simp)
        · exact absurd h (by simp)
      · exact absurd h (by simp)

/-- C7 witness: concrete decision values and a concrete session with a
transcode sub-object whose published decision obeys the rule. -/
theorem transcode_decision_rule_witness :
    transcodeDecision (.jstr "copy") (.jstr "copy") = "Direct Stream"
    ∧ transcodeDecision (.jstr "transcode") (.jstr "copy") = "Transcode"
    ∧ transcodeDecision (.jstr "burn") (.jstr "copy") = "Unknown"
    ∧ sessBurnTL.transcode_decision
        = transcodeDecision sessBurnTL.video_decision sessBurnTL.audio_decision :=
  ⟨rfl, rfl, rfl, transcode_decision_rule.2.2.2.2 sessBurn sessBurnSL sessBurnTL rfl⟩

/-! ## Claim C8 - media title formatting -/

/-- C8: `get_media_title` formats an episode as
`show - S<season>E<episode> - title` with indices zero-filled to width
2 (a missing index renders as the placeholder `?`, zero-filled to
`0?`), a movie as `title (year)` only for a truthy year and else the
bare title, a track as `artist - album - title`, and any other type as
the bare title.  (The source's `except` fallback to the bare title is
unreachable for decoded JSON inputs, so the model is total.) -/
theorem media_title_rule :
    (∀ (m : List (String × JVal)) (sh ti : String) (si ei : ℤ),
      dget m "type" = some (.jstr "episode") →
      dget m "grandparentTitle" = some (.jstr sh) →
      dget m "parentIndex" = some (.jint si) →
      dget m "index" = some (.jint ei) →
      dget m "title" = some (.jstr ti) →
      get_media_title m =
        .jstr (sh ++ " - S" ++ zfill (toString si) 2 ++ "E" ++ zfill (toString ei) 2
          ++ " - " ++ ti))
    ∧ (∀ (m : List (String × JVal)) (sh ti : String) (ei : ℤ),
      dget m "type" = some (.jstr "episode") →
      dget m "grandparentTitle" = some (.jstr sh) →
      dget m "parentIndex" = none →
      dget m "index" = some (.jint ei) →
      dget m "title" = some (.jstr ti) →
      get_media_title m =
        .jstr (sh ++ " - S" ++ "0?" ++ "E" ++ zfill (toString ei) 2 ++ " - " ++ ti))
    ∧ (∀ (m : List (String × JVal)) (ti : String) (y : ℤ),
      dget m "type" = some (.jstr "movie") →
      dget m "title" = some (.jstr ti) →
      dget m "year" = some (.jint y) → y ≠ 0 →
      get_media_title m = .jstr (ti ++ " (" ++ toString y ++ ")"))
    ∧ (∀ (m : List (String × JVal)) (ti : String),
      dget m "type" = some (.jstr "movie") →
      dget m "title" = some (.jstr ti) →
      dget m "year" = none →
      get_media_title m = .jstr ti)
    ∧ (∀ (m : List (String × JVal)) (ar al ti : String),
      dget m "type" = some (.jstr "track") →
      dget m "grandparentTitle" = some (.jstr ar) →
      dget m "parentTitle" = some (.jstr al) →
      dget m "title" = some (.jstr ti) →
      get_media_title m = .jstr (ar ++ " - " ++ al ++ " - " ++ ti))
    ∧ (∀ (m : List (String × JVal)) (t ti : String),
      dget m "type" = some (.jstr t) →
      t ≠ "episode" → t ≠ "movie" → t ≠ "track" →
      dget m "title" = some (.jstr ti) →
      get_media_title m = .jstr ti) := by
  refine ⟨?_, ?_, ?_, ?_, ?_, ?_⟩
  · intro m sh ti si ei h1 h2 h3 h4 h5
    simp [get_media_title, dgetD, h1, h2, h3, h4, h5, pyStr, beqJ]
  · intro m sh ti ei h1 h2 h3 h4 h5
    simp [get_media_title, dgetD, h1, h2, h3, h4, h5, pyStr, beqJ]
    rw [show zfill "?" 2 = "0?" from rfl]
  · intro m ti y h1 h2 h3 hy
    simp [get_media_title, dgetD, h1, h2, h3, pyStr, beqJ, pyTruthy, hy]
  · intro m ti h1 h2 h3
    simp [get_media_title, dgetD, h1, h2, h3, pyStr, beqJ, pyTruthy]
    intro hcontra
    exact absurd hcontra (by decide)
  · intro m ar al ti h1 h2 h3 h4
    simp [get_media_title, dgetD, h1, h2, h3, h4, pyStr, beqJ]
  · intro m t ti h1 ht1 ht2 ht3 h2
    simp [get_media_title, dgetD, h1, h2, pyStr, beqJ, ht1, ht2, ht3]

/-- C8 witness: the theorem applied at concrete metadata, reproducing
`Foo - S01E03 - Bar`, the `Foo - S0?E03 - Bar` placeholder zero-fill,
a movie with and without a year, a track, and an unknown type. -/
theorem media_title_rule_witness :
    get_media_title [("type", .jstr "episode"), ("grandparentTitle", .jstr "Foo"),
        ("parentIndex", .jint 1), ("index", .jint 3), ("title", .jstr "Bar")]
      = .jstr "Foo - S01E03 - Bar"
    ∧ get_media_title [("type", .jstr "episode"), ("grandparentTitle", .jstr "Foo"),
        ("index", .jint 3), ("title", .jstr "Bar")]
      = .jstr "Foo - S0?E03 - Bar"
    ∧ get_media_title [("type", .jstr "movie"), ("title", .jstr "M"), ("year", .jint 1999)]
      = .jstr "M (1999)"
    ∧ get_media_title [("type", .jstr "movie"), ("title", .jstr "M")]
      = .jstr "M"
    ∧ get_media_title [("type", .jstr "track"), ("grandparentTitle", .jstr "A"),
        ("parentTitle", .jstr "B"), ("title", .jstr "T")]
      = .jstr "A - B - T"
    ∧ get_media_title [("type", .jstr "photo"), ("title", .jstr "P")]
      = .jstr "P" :=
  ⟨(media_title_rule.1 [("type", .jstr "episode"), ("grandparentTitle", .jstr "Foo"),
      ("parentIndex", .jint 1), ("index", .jint 3), ("title", .jstr "Bar")]
      "Foo" "Bar" 1 3 rfl rfl rfl rfl rfl).trans rfl,
   (media_title_rule.2.1 [("type", .jstr "episode"), ("grandparentTitle", .jstr "Foo"),
      ("index", .jint 3), ("title", .jstr "Bar")]
      "Foo" "Bar" 3 rfl rfl rfl rfl rfl).trans rfl,
   (media_title_rule.2.2.1 [("type", .jstr "movie"), ("title", .jstr "M"),
      ("year", .jint 1999)] "M" 1999 rfl rfl rfl (by norm_num)).trans rfl,
   media_title_rule.2.2.2.1 [("type", .jstr "movie"), ("title", .jstr "M")] "M" rfl rfl rfl,
   media_title_rule.2.2.2.2.1 [("type", .jstr "track"), ("grandparentTitle", .jstr "A"),
      ("parentTitle", .jstr "B"), ("title", .jstr "T")] "A" "B" "T" rfl rfl rfl rfl,
   media_title_rule.2.2.2.2.2 [("type", .jstr "photo"), ("title", .jstr "P")] "photo" "P"
      rfl (by decide) (by decide) (by decide) rfl⟩

/-! ## Claim C4 - published duration/view-offset values -/

/-- C4 counterexample: a session whose upstream `duration`/`viewOffset`
are negative integers is published with those negative values in its
`duration_ms`/`view_offset_ms` labels - they are not non-negative. -/
theorem session_nonneg_cex :
    (sessionsCore (some respSessionsNeg)).details.map (fun p => p.1.duration_ms) = [-5000]
    ∧ (sessionsCore (some respSessionsNeg)).details.map (fun p => p.1.view_offset_ms) = [-100]
    ∧ ¬(0 ≤ (-5000 : ℤ)) :=
  ⟨rfl, rfl, by decide⟩

/-- C4 (amended): for every published session record, `duration_ms` and
`view_offset_ms` are the integer coercions of the upstream
`duration`/`viewOffset` values (defaulting to 0 when absent); a failed
duration coercion leaves both at 0, a failed view-offset coercion
leaves the already-coerced duration and a 0 offset, and a successful
coercion is published unchanged - including negative values, so
non-negativity is not guaranteed. -/
theorem session_duration_published (skvs : List (String × JVal)) (sl : SessionL)
    (h : sessStepLabel (processSession (.jobj skvs)) = some sl) :
    sl.duration_ms =
      (sessionProgress (dgetD skvs "duration" (.jint 0)) (dgetD skvs "viewOffset" (.jint 0))).1
    ∧ sl.view_offset_ms =
      (sessionProgress (dgetD skvs "duration" (.jint 0)) (dgetD skvs "viewOffset" (.jint 0))).2.1
    ∧ (pyInt (dgetD skvs "duration" (.jint 0)) = none →
        sl.duration_ms = 0 ∧ sl.view_offset_ms = 0)
    ∧ (∀ d : ℤ, pyInt (dgetD skvs "duration" (.jint 0)) = some d → sl.duration_ms = d)
    ∧ (∀ d v : ℤ, pyInt (dgetD skvs "duration" (.jint 0)) = some d →
        pyInt (dgetD skvs "viewOffset" (.jint 0)) = some v → sl.view_offset_ms = v) := by
  simp only [processSession] at h
  split at h
  · split at h
    · split at h
      · simp only [sessStepLabel, Option.some.injEq] at h
        subst h
        refine ⟨rfl, rfl, ?_, ?_, ?_⟩
        · intro hd
          exact ⟨by simp [sessionProgress_dur_none hd], by simp [sessionProgress_dur_none hd]⟩
        · intro d hd
          exact sessionProgress_dur_some hd
        · intro d v hd hv
          exact sessionProgress_vo_some hd hv
      · split at h
        · split at h
          · simp only [sessStepLabel, Option.some.injEq] at h
            subst h
            refine ⟨rfl, rfl, ?_, ?_, ?_⟩
            · intro hd
              exact ⟨by simp [sessionProgress_dur_none hd], by simp [sessionProgress_dur_none hd]⟩
            · intro d hd
              exact sessionProgress_dur_some hd
            · intro d v hd hv
              exact sessionProgress_vo_some hd hv
          · simp only [sessStepLabel, Option.some.injEq] at h
            subst h
            refine ⟨rfl, rfl, ?_, ?_, ?_⟩
            · intro hd
              exact ⟨by simp [sessionProgress_dur_none hd], by simp [sessionProgress_dur_none hd]⟩
            · intro d hd
              exact sessionProgress_dur_some hd
            · intro d v hd hv
              exact sessionProgress_vo_some hd hv
        · simp only [sessStepLabel, Option.some.injEq] at h
          subst h
          refine ⟨rfl, rfl, ?_, ?_, ?_⟩
          · intro hd
            exact ⟨by simp [sessionProgress_dur_none hd], by simp [sessionProgress_dur_none hd]⟩
          · intro d hd
            exact sessionProgress_dur_some hd
          · intro d v hd hv
            exact sessionProgress_vo_some hd hv
    · simp [sessStepLabel] at h
  · simp [sessStepLabel] at h

/-- C4 witness for the amended theorem: the session with negative
upstream values satisfies the published-value characterisation. -/
theorem session_duration_published_witness :
    sessBurnSL.duration_ms =
      (sessionProgress (dgetD [("sessionKey", JVal.jstr "4"),
          ("TranscodeSession", JVal.jobj [("videoDecision", JVal.jstr "burn"),
            ("audioDecision", JVal.jstr "copy")])] "duration" (.jint 0))
        (dgetD [("sessionKey", JVal.jstr "4"),
          ("TranscodeSession", JVal.jobj [("videoDecision", JVal.jstr "burn"),
            ("audioDecision", JVal.jstr "copy")])] "viewOffset" (.jint 0))).1 :=
  (session_duration_published [("sessionKey", JVal.jstr "4"),
      ("TranscodeSession", JVal.jobj [("videoDecision", JVal.jstr "burn"),
        ("audioDecision", JVal.jstr "copy")])] sessBurnSL rfl).1

/-! ## Claim C3 - identity failure forces a fully-zeroed DOWN cycle -/

/-- C3: for every cycle in which the identity fetch fails, or returns a
body in which the `MediaContainer` membership test is false, the
published registry is fully zeroed/cleared (all counts 0, all labelled
families empty, `server_up = 0`, identity info empty) and the only
endpoint fetched in the cycle is `/identity` - no downstream extractor
fetch is issued, and no exception escapes. -/
theorem identity_failure_down (env : String → FetchR) (w : World)
    (h : (fetch_plex_api (env "/identity")).1 = none
      ∨ ∃ v, (fetch_plex_api (env "/identity")).1 = some v
          ∧ pyContains v "MediaContainer" = some false) :
    (collect_plex_metrics env w).1.reg.server_up = 0
    ∧ (collect_plex_metrics env w).1.reg.server_info = []
    ∧ (collect_plex_metrics env w).1.reg.sessions_active = 0
    ∧ (collect_plex_metrics env w).1.reg.session_details = []
    ∧ (collect_plex_metrics env w).1.reg.transcode_sessions_active = 0
    ∧ (collect_plex_metrics env w).1.reg.transcode_session_details = []
    ∧ (collect_plex_metrics env w).1.reg.library_sections = 0
    ∧ (collect_plex_metrics env w).1.reg.library_items = []
    ∧ (collect_plex_metrics env w).1.reg.devices_connected = 0
    ∧ (collect_plex_metrics env w).1.reg.activities_active = 0
    ∧ (collect_plex_metrics env w).1.reg.updater_available = []
    ∧ (collect_plex_metrics env w).1.fetched = w.fetched ++ ["/identity"]
    ∧ (collect_plex_metrics env w).2 = false := by
  obtain ⟨res, b, hfb⟩ : ∃ res b, fetch_plex_api (env "/identity") = (res, b) := ⟨_, _, rfl⟩
  rw [hfb] at h
  rcases h with h | ⟨v, hv, hc⟩
  · simp only [] at h
    subst h
    simp [collect_plex_metrics, collectOutcome, hfb, serverStatusCore, applyPatch]
  · simp only [] at hv
    subst hv
    simp [collect_plex_metrics, collectOutcome, hfb, serverStatusCore, hc, applyPatch]

/-- C3 witness: the theorem applied to the all-404 environment and a
registry full of stale values. -/
theorem identity_failure_down_witness :
    (collect_plex_metrics env404 worldStale).1.reg.server_up = 0
    ∧ (collect_plex_metrics env404 worldStale).1.reg.server_info = []
    ∧ (collect_plex_metrics env404 worldStale).1.reg.sessions_active = 0
    ∧ (collect_plex_metrics env404 worldStale).1.reg.session_details = []
    ∧ (collect_plex_metrics env404 worldStale).1.reg.transcode_sessions_active = 0
    ∧ (collect_plex_metrics env404 worldStale).1.reg.transcode_session_details = []
    ∧ (collect_plex_metrics env404 worldStale).1.reg.library_sections = 0
    ∧ (collect_plex_metrics env404 worldStale).1.reg.library_items = []
    ∧ (collect_plex_metrics env404 worldStale).1.reg.devices_connected = 0
    ∧ (collect_plex_metrics env404 worldStale).1.reg.activities_active = 0
    ∧ (collect_plex_metrics env404 worldStale).1.reg.updater_available = []
    ∧ (collect_plex_metrics env404 worldStale).1.fetched = [] ++ ["/identity"]
    ∧ (collect_plex_metrics env404 worldStale).2 = false :=
  identity_failure_down env404 worldStale (Or.inl rfl)

/-! ## Claim C2 - an extractor exception aborts the rest of the cycle -/

/-- C2 counterexample: with a healthy identity and a `/status/sessions`
body whose `size` is a non-numeric string, the session extractor
raises; the error is caught and counted (errors = 1, no exception
escapes), but the remaining extractors do NOT run: no
library/devices/activities/updater endpoint is fetched and the stale
library and updater series from the prior cycle survive unchanged,
contradicting "all remaining extractors still run and publish their
results". -/
theorem secondary_abort_cex :
    (collect_plex_metrics envSessionRaise worldStale).1.fetched
      = ["/identity", "/status/sessions"]
    ∧ (collect_plex_metrics envSessionRaise worldStale).1.reg.library_items
      = [(⟨.jstr "Stale", .jstr "movie"⟩, 42)]
    ∧ (collect_plex_metrics envSessionRaise worldStale).1.reg.updater_available
      = [(⟨.jstr "a", .jstr "b"⟩, 1)]
    ∧ (collect_plex_metrics envSessionRaise worldStale).1.reg.scrape_errors_total = 1
    ∧ (collect_plex_metrics envSessionRaise worldStale).2 = false :=
  ⟨rfl, rfl, rfl, rfl, rfl⟩

/-- C2 (amended): when any single secondary extractor raises an
unexpected internal error, the orchestrator catches it, logs it, and
counts it as one scrape error, and the cycle ends without an escaping
exception - but the remaining extractors in the fixed sequence do NOT
run for that cycle (the single `try` wraps the whole sequence): no
endpoint after the failing extractor's is fetched, and every later
extractor's metrics keep the previous cycle's values, while the writes
the failing extractor performed before the raise do publish.  One
conjunct per raising extractor: sessions, library, devices,
activities, updater. -/
theorem secondary_abort (env : String → FetchR) (w : World) :
    ((serverStatusCore (fetch_plex_api (env "/identity")).1).ok = true →
     (serverStatusCore (fetch_plex_api (env "/identity")).1).raised = false →
     (sessionsCore (fetch_plex_api (env "/status/sessions")).1).raised = true →
      (collect_plex_metrics env w).1.fetched = w.fetched ++ ["/identity", "/status/sessions"]
      ∧ (collect_plex_metrics env w).1.reg.scrape_errors_total
        = w.reg.scrape_errors_total + ((if (fetch_plex_api (env "/identity")).2 then 1 else 0)
          + (if (fetch_plex_api (env "/status/sessions")).2 then 1 else 0) + 1)
      ∧ (collect_plex_metrics env w).1.reg.library_items = w.reg.library_items
      ∧ (collect_plex_metrics env w).1.reg.library_sections = w.reg.library_sections
      ∧ (collect_plex_metrics env w).1.reg.devices_connected = w.reg.devices_connected
      ∧ (collect_plex_metrics env w).1.reg.activities_active = w.reg.activities_active
      ∧ (collect_plex_metrics env w).1.reg.updater_available = w.reg.updater_available
      ∧ (collect_plex_metrics env w).1.reg.session_details
        = (sessionsCore (fetch_plex_api (env "/status/sessions")).1).details
      ∧ (collect_plex_metrics env w).2 = false)
    ∧ ((serverStatusCore (fetch_plex_api (env "/identity")).1).ok = true →
     (serverStatusCore (fetch_plex_api (env "/identity")).1).raised = false →
     (sessionsCore (fetch_plex_api (env "/status/sessions")).1).raised = false →
     (libraryCore env (fetch_plex_api (env "/library/sections")).1).raised = true →
      (collect_plex_metrics env w).1.fetched
        = w.fetched ++ (["/identity", "/status/sessions"] ++ ["/library/sections"]
          ++ (libraryCore env (fetch_plex_api (env "/library/sections")).1).eps)
      ∧ (collect_plex_metrics env w).1.reg.scrape_errors_total
        = w.reg.scrape_errors_total + ((if (fetch_plex_api (env "/identity")).2 then 1 else 0)
          + (if (fetch_plex_api (env "/status/sessions")).2 then 1 else 0)
          + (if (fetch_plex_api (env "/library/sections")).2 then 1 else 0)
          + (libraryCore env (fetch_plex_api (env "/library/sections")).1).errBump + 1)
      ∧ (collect_plex_metrics env w).1.reg.devices_connected = w.reg.devices_connected
      ∧ (collect_plex_metrics env w).1.reg.activities_active = w.reg.activities_active
      ∧ (collect_plex_metrics env w).1.reg.updater_available = w.reg.updater_available
      ∧ (collect_plex_metrics env w).1.reg.library_items
        = (libraryCore env (fetch_plex_api (env "/library/sections")).1).items
      ∧ (collect_plex_metrics env w).2 = false)
    ∧ ((serverStatusCore (fetch_plex_api (env "/identity")).1).ok = true →
     (serverStatusCore (fetch_plex_api (env "/identity")).1).raised = false →
     (sessionsCore (fetch_plex_api (env "/status/sessions")).1).raised = false →
     (libraryCore env (fetch_plex_api (env "/library/sections")).1).raised = false →
     (devicesCore (fetch_plex_api (env "/devices")).1
        (serverStatusCore (fetch_plex_api (env "/identity")).1).infoDict).raised = true →
      (collect_plex_metrics env w).1.fetched
        = w.fetched ++ (["/identity", "/status/sessions"] ++ ["/library/sections"]
          ++ (libraryCore env (fetch_plex_api (env "/library/sections")).1).eps
          ++ ["/devices"])
      ∧ (collect_plex_metrics env w).1.reg.scrape_errors_total
        = w.reg.scrape_errors_total + ((if (fetch_plex_api (env "/identity")).2 then 1 else 0)
          + (if (fetch_plex_api (env "/status/sessions")).2 then 1 else 0)
          + (if (fetch_plex_api (env "/library/sections")).2 then 1 else 0)
          + (libraryCore env (fetch_plex_api (env "/library/sections")).1).errBump
          + (if (fetch_plex_api (env "/devices")).2 then 1 else 0) + 1)
      ∧ (collect_plex_metrics env w).1.reg.activities_active = w.reg.activities_active
      ∧ (collect_plex_metrics env w).1.reg.updater_available = w.reg.updater_available
      ∧ (collect_plex_metrics env w).2 = false)
    ∧ ((serverStatusCore (fetch_plex_api (env "/identity")).1).ok = true →
     (serverStatusCore (fetch_plex_api (env "/identity")).1).raised = false →
     (sessionsCore (fetch_plex_api (env "/status/sessions")).1).raised = false →
     (libraryCore env (fetch_plex_api (env "/library/sections")).1).raised = false →
     (devicesCore (fetch_plex_api (env "/devices")).1
        (serverStatusCore (fetch_plex_api (env "/identity")).1).infoDict).raised = false →
     (activitiesCore (fetch_plex_api (env "/activities")).1).raised = true →
      (collect_plex_metrics env w).1.fetched
        = w.fetched ++ (["/identity", "/status/sessions"] ++ ["/library/sections"]
          ++ (libraryCore env (fetch_plex_api (env "/library/sections")).1).eps
          ++ ["/devices"] ++ ["/activities"])
      ∧ (collect_plex_metrics env w).1.reg.scrape_errors_total
        = w.reg.scrape_errors_total + ((if (fetch_plex_api (env "/identity")).2 then 1 else 0)
          + (if (fetch_plex_api (env "/status/sessions")).2 then 1 else 0)
          + (if (fetch_plex_api (env "/library/sections")).2 then 1 else 0)
          + (libraryCore env (fetch_plex_api (env "/library/sections")).1).errBump
          + (if (fetch_plex_api (env "/devices")).2 then 1 else 0)
          + (if (fetch_plex_api (env "/activities")).2 then 1 else 0) + 1)
      ∧ (collect_plex_metrics env w).1.reg.updater_available = w.reg.updater_available
      ∧ (collect_plex_metrics env w).2 = false)
    ∧ ((serverStatusCore (fetch_plex_api (env "/identity")).1).ok = true →
     (serverStatusCore (fetch_plex_api (env "/identity")).1).raised = false →
     (sessionsCore (fetch_plex_api (env "/status/sessions")).1).raised = false →
     (libraryCore env (fetch_plex_api (env "/library/sections")).1).raised = false →
     (devicesCore (fetch_plex_api (env "/devices")).1
        (serverStatusCore (fetch_plex_api (env "/identity")).1).infoDict).raised = false →
     (activitiesCore (fetch_plex_api (env "/activities")).1).raised = false →
     (updaterCore (fetch_plex_api (env "/updater/status")).1).raised = true →
      (collect_plex_metrics env w).1.fetched
        = w.fetched ++ (["/identity", "/status/sessions"] ++ ["/library/sections"]
          ++ (libraryCore env (fetch_plex_api (env "/library/sections")).1).eps
          ++ ["/devices"] ++ ["/activities"] ++ ["/updater/status"])
      ∧ (collect_plex_metrics env w).1.reg.scrape_errors_total
        = w.reg.scrape_errors_total + ((if (fetch_plex_api (env "/identity")).2 then 1 else 0)
          + (if (fetch_plex_api (env "/status/sessions")).2 then 1 else 0)
          + (if (fetch_plex_api (env "/library/sections")).2 then 1 else 0)
          + (libraryCore env (fetch_plex_api (env "/library/sections")).1).errBump
          + (if (fetch_plex_api (env "/devices")).2 then 1 else 0)
          + (if (fetch_plex_api (env "/activities")).2 then 1 else 0)
          + (if (fetch_plex_api (env "/updater/status")).2 then 1 else 0) + 1)
      ∧ (collect_plex_metrics env w).1.reg.updater_available
        = (updaterCore (fetch_plex_api (env "/updater/status")).1).family
      ∧ (collect_plex_metrics env w).2 = false) := by
  refine ⟨?_, ?_, ?_, ?_, ?_⟩
  · intro hok hnr hsr
    simp [collect_plex_metrics, collectOutcome, hok, hnr, hsr, catchBump, applyPatch]
  · intro hok hnr h1 hlr
    simp [collect_plex_metrics, collectOutcome, hok, hnr, h1, hlr, catchBump, applyPatch]
  · intro hok hnr h1 h2 hdr
    simp [collect_plex_metrics, collectOutcome, hok, hnr, h1, h2, hdr, catchBump, applyPatch]
  · intro hok hnr h1 h2 h3 har
    simp [collect_plex_metrics, collectOutcome, hok, hnr, h1, h2, h3, har, catchBump,
      applyPatch]
  · intro hok hnr h1 h2 h3 h4 hur
    simp [collect_plex_metrics, collectOutcome, hok, hnr, h1, h2, h3, h4, hur, catchBump,
      applyPatch]

/-- C2 witness for the amended theorem: a raise in the session
extractor (no later endpoint fetched) and a raise in the library
extractor (devices/activities/updater metrics keep the stale prior
values), both at concrete environments. -/
theorem secondary_abort_witness :
    (collect_plex_metrics envSessionRaise worldStale).1.fetched
      = worldStale.fetched ++ ["/identity", "/status/sessions"]
    ∧ (collect_plex_metrics envLibraryRaise worldStale).1.reg.devices_connected
      = worldStale.reg.devices_connected
    ∧ (collect_plex_metrics envLibraryRaise worldStale).1.reg.updater_available
      = worldStale.reg.updater_available :=
  ⟨((secondary_abort envSessionRaise worldStale).1 rfl rfl rfl).1,
   ((secondary_abort envLibraryRaise worldStale).2.1 rfl rfl rfl rfl).2.2.1,
   ((secondary_abort envLibraryRaise worldStale).2.1 rfl rfl rfl rfl).2.2.2.2.1⟩

/-! ## Claim C10 - updater family empty after a failed updater fetch -/

/-- C10: in a cycle whose identity check succeeds and whose earlier
secondary extractors complete without raising, if the `/updater/status`
fetch fails or its body fails the `MediaContainer` membership test,
the `plex_updater_available` family ends the cycle with zero label
series - the previous cycle's series were cleared before the result
was examined and nothing is republished, whatever the prior registry
held. -/
theorem updater_cleared_on_failure (env : String → FetchR) (w : World)
    (hok : (serverStatusCore (fetch_plex_api (env "/identity")).1).ok = true)
    (hnr : (serverStatusCore (fetch_plex_api (env "/identity")).1).raised = false)
    (h1 : (sessionsCore (fetch_plex_api (env "/status/sessions")).1).raised = false)
    (h2 : (libraryCore env (fetch_plex_api (env "/library/sections")).1).raised = false)
    (h3 : (devicesCore (fetch_plex_api (env "/devices")).1
        (serverStatusCore (fetch_plex_api (env "/identity")).1).infoDict).raised = false)
    (h4 : (activitiesCore (fetch_plex_api (env "/activities")).1).raised = false)
    (hu : (fetch_plex_api (env "/updater/status")).1 = none
      ∨ ∃ v, (fetch_plex_api (env "/updater/status")).1 = some v
          ∧ pyContains v "MediaContainer" = some false) :
    (collect_plex_metrics env w).1.reg.updater_available = [] := by
  have hfam : (updaterCore (fetch_plex_api (env "/updater/status")).1).family = []
      ∧ (updaterCore (fetch_plex_api (env "/updater/status")).1).raised = false := by
    rcases hu with h | ⟨v, hv, hc⟩
    · rw [h]
      exact ⟨rfl, rfl⟩
    · rw [hv]
      simp [updaterCore, hc]
  simp [collect_plex_metrics, collectOutcome, hok, hnr, h1, h2, h3, h4,
    hfam.1, hfam.2, catchBump, applyPatch]

/-- C10 witness: the theorem applied to the environment whose
`/updater/status` gets an HTTP 500 while everything else succeeds, on a
registry holding a stale updater series. -/
theorem updater_cleared_on_failure_witness :
    (collect_plex_metrics envUpdaterFail worldStale).1.reg.updater_available = [] :=
  updater_cleared_on_failure envUpdaterFail worldStale rfl rfl rfl rfl rfl rfl (Or.inl rfl)

/-! ## Claim C5 - idempotence of the orchestrator -/

/-- C5: running the orchestrator a second time against identical
upstream responses publishes exactly the Plex metric view the first run
published: every field of the second run's registry view (labelled
families cleared-and-repopulated, gauges overwritten, untouched fields
unchanged) equals the first run's, for every environment and starting
registry.  (The exporter's own scrape/error counters are monotone
meta-metrics, excluded from the view by definition.) -/
theorem collect_idempotent (env : String → FetchR) (w : World) :
    ((collect_plex_metrics env (collect_plex_metrics env w).1).1).reg.plexView
      = ((collect_plex_metrics env w).1).reg.plexView := by
  simp [collect_plex_metrics, Registry.plexView, applyPatch, optGetD_idem]
